import Mathlib

/-!
Shallow embedding of the stylemy.hair client (image acquisition and
style-transform pipeline) for checking the natural-language spec.

Sources embedded:
- App.tsx: session state fields and the three handlers
  (handleImageUpload, handleStyleSelect, handleDiscard);
- services/geminiService (in constants.ts): applyHairstyle;
- components/PresetStyles.tsx: the style buttons carry disabled when isLoading;
- components/ImageUploader.tsx: rendered only when no original image; the
  drag-and-drop path calls onImageUpload without checking isLoading;
- components/ActionButtons.tsx: the discard button is never disabled;
- components/CameraCapture.tsx: mount effect, cleanup and handleCapture;
- BeforeAfterSlider (src/unnamed/part_005): handleMove, drag events, clip path.

React state updates are modelled as explicit record updates; the suspension
point of each async handler splits it into a Start function (the synchronous
code before the await) and a Complete function (the continuation applied to
the session state current at delivery time).
-/

namespace StyleMyHair

/-- A preset style catalog entry (types.ts / constants.ts). -/
structure PresetStyle where
  id : String
  name : String
  prompt : String
  thumbnail : String
deriving DecidableEq, Repr

/-- The originalImage state value in App.tsx: object URL, base64 payload, mime type. -/
structure SourceImage where
  url : String
  base64 : String
  mimeType : String
deriving DecidableEq, Repr

/-- The reactive session fields of App.tsx lines 32 to 36. -/
structure AppState where
  originalImage : Option SourceImage
  styledImage : Option String
  isLoading : Bool
  error : Option String
  selectedStyle : Option PresetStyle
deriving DecidableEq, Repr

/-- The initial state of App.tsx: every field null, isLoading false. -/
def initialState : AppState :=
  { originalImage := none, styledImage := none, isLoading := false,
    error := none, selectedStyle := none }

/-- The request data handed to applyHairstyle (App.tsx line 82). -/
structure TransformCall where
  base64 : String
  mimeType : String
  prompt : String
deriving DecidableEq, Repr

/-- Synchronous code of handleImageUpload before the await of fileToBase64
(App.tsx lines 55 to 58): setIsLoading(true), setError(null),
setStyledImage(null), setSelectedStyle(null). -/
def handleImageUploadStart (s : AppState) : AppState :=
  { s with isLoading := true, error := none, styledImage := none, selectedStyle := none }

/-- Continuation of handleImageUpload after fileToBase64 settles
(App.tsx lines 60 to 67): on success setOriginalImage, on failure setError;
the finally block sets isLoading false in both branches. -/
def handleImageUploadComplete (s : AppState) (r : Except Unit SourceImage) : AppState :=
  match r with
  | Except.ok img => { s with originalImage := some img, isLoading := false }
  | Except.error _ =>
      { s with error := some "Failed to load image. Please try again.", isLoading := false }

/-- Synchronous code of handleStyleSelect before the await of applyHairstyle
(App.tsx lines 70 to 82). With no originalImage it sets the fixed error and
returns without issuing a call; otherwise it sets isLoading, clears error and
styledImage, records the selected style, and issues the transform call built
from the current originalImage and the chosen style. -/
def handleStyleSelectStart (s : AppState) (style : PresetStyle) :
    AppState × Option TransformCall :=
  match s.originalImage with
  | none => ({ s with error := some "Please upload an image first." }, none)
  | some img =>
      ({ s with isLoading := true, error := none, styledImage := none,
                selectedStyle := some style },
       some { base64 := img.base64, mimeType := img.mimeType, prompt := style.prompt })

/-- Continuation of handleStyleSelect after applyHairstyle settles
(App.tsx lines 82 to 89): on success setStyledImage with the data URL
built from the returned base64; on failure setError with the wrapped
message; the finally block sets isLoading false in both branches.
The continuation is applied to whatever session state is current when it
runs, with no check that its originating source image is still current. -/
def handleStyleSelectComplete (s : AppState) (r : Except String String) : AppState :=
  match r with
  | Except.ok b =>
      { s with styledImage := some ("data:image/png;base64," ++ b), isLoading := false }
  | Except.error m =>
      { s with error := some ("AI generation failed: " ++ m ++ ". Please try again."),
               isLoading := false }

/-- handleDiscard (App.tsx lines 92 to 97): nulls originalImage, styledImage,
selectedStyle and error. It does not touch isLoading. -/
def handleDiscard (s : AppState) : AppState :=
  { s with originalImage := none, styledImage := none, selectedStyle := none, error := none }

/-- Outcome of the external generateContent call as seen by applyHairstyle
(geminiService): an image part was returned, or the response carried no image
part (with a finish reason and safety ratings text), or the request itself
threw (network or service failure). -/
inductive ServiceOutcome where
  | ok (data : String)
  | noImage (finishReason : String) (safety : String)
  | requestError (message : String)
deriving DecidableEq, Repr

/-- The detailed message built in the no-image branch of applyHairstyle
(geminiService line 98). -/
def geminiNoImageMessage (finishReason safety : String) : String :=
  "AI did not return an image. Reason: " ++ finishReason ++ ". Safety: " ++ safety

/-- The generic message thrown by the catch block of applyHairstyle
(geminiService line 102). -/
def geminiGenericFailureMessage : String :=
  "Failed to generate hairstyle. The AI service may be unavailable or the request was blocked."

/-- The body of the try block of applyHairstyle: return the image data if
present, otherwise throw the detailed no-image error; a request error
propagates as thrown. -/
def applyHairstyleTry (o : ServiceOutcome) : Except String String :=
  match o with
  | ServiceOutcome.ok d => Except.ok d
  | ServiceOutcome.noImage r s => Except.error (geminiNoImageMessage r s)
  | ServiceOutcome.requestError m => Except.error m

/-- applyHairstyle (geminiService lines 66 to 104): the catch block wraps
every error raised inside the try block, including the detailed no-image
error thrown there, into the one generic failure message. -/
def applyHairstyle (o : ServiceOutcome) : Except String String :=
  match applyHairstyleTry o with
  | Except.ok d => Except.ok d
  | Except.error _ => Except.error geminiGenericFailureMessage

/-- A click on a preset style button (PresetStyles.tsx lines 30 to 38):
the button carries disabled when isLoading, so while isLoading is true the
click does not invoke onStyleSelect and neither changes state nor issues a
call; otherwise it runs handleStyleSelect. -/
def presetStyleClick (s : AppState) (style : PresetStyle) :
    AppState × Option TransformCall :=
  if s.isLoading then (s, none) else handleStyleSelectStart s style

/-- The static style catalog PRESET_STYLES (constants.ts lines 4 to 53). -/
def PRESET_STYLES : List PresetStyle :=
  [ { id := "classic-side-part", name := "Classic Side Part",
      prompt := "Give the person a neat, classic side part hairstyle. Keep the color natural.",
      thumbnail := "/style-thumbnails/classic-side-part.svg" },
    { id := "pompadour-quiff", name := "Pompadour / Quiff",
      prompt := "Transform the hair into a stylish pompadour with a quiff. The sides should be shorter.",
      thumbnail := "/style-thumbnails/pompadour.svg" },
    { id := "undercut-fade", name := "Undercut with Fade",
      prompt := "Apply a trendy undercut hairstyle with a smooth skin fade on the sides.",
      thumbnail := "/style-thumbnails/undercut.svg" },
    { id := "buzz-crew-cut", name := "Buzz / Crew Cut",
      prompt := "Give the person a very short and clean buzz cut.",
      thumbnail := "/style-thumbnails/buzz-cut.svg" },
    { id := "medium-layers", name := "Medium Layered",
      prompt := "Change the hairstyle to a medium-length layered cut with some texture and volume.",
      thumbnail := "/style-thumbnails/medium-layered.svg" },
    { id := "curly-top", name := "Curly/Wavy Top",
      prompt := "Style the hair with prominent curls or waves on top, keeping the sides relatively short.",
      thumbnail := "/style-thumbnails/curly-top.svg" },
    { id := "long-hair", name := "Long Hair",
      prompt := "Give the person long, flowing hair that goes past the shoulders.",
      thumbnail := "/style-thumbnails/long-hair.svg" },
    { id := "silver-fox", name := "Silver Fox",
      prompt := "Change the hair to a sophisticated, stylish cut with a salt-and-pepper or fully silver color.",
      thumbnail := "/style-thumbnails/silver-fox.svg" } ]

/-!
Whole-UI event machine. App.tsx line 110 renders ImageUploader exactly when
originalImage is null, and otherwise the grid with ImagePreview, StyledPreview
(whose ActionButtons include a never-disabled discard button) and PresetStyles
(whose buttons carry disabled when isLoading). The onDrop handler of
ImageUploader calls onImageUpload without consulting isLoading. Each step
returns none when the interface cannot deliver that event in that state, so
every trace of the machine is a trace the rendered interface permits.
-/

/-- Session plus the outstanding asynchronous operations: a pending
fileToBase64 read (with the decode outcome the file will produce) and a
pending applyHairstyle call (the request that was sent). -/
structure Sys where
  app : AppState
  pendingUpload : Option (Except Unit SourceImage)
  pendingTransform : Option TransformCall
deriving Repr

/-- The system at page load: initial App state, nothing pending. -/
def initSys : Sys :=
  { app := initialState, pendingUpload := none, pendingTransform := none }

/-- User-interface events: dropping a file on the uploader (carrying the
decode outcome the read will settle with), the pending read settling, a click
on a preset style button, the pending transform settling with a service
outcome, and a click on the discard button. -/
inductive UIEvent where
  | dropFile (r : Except Unit SourceImage)
  | uploadSettles
  | clickStyle (style : PresetStyle)
  | transformSettles (o : ServiceOutcome)
  | clickDiscard
deriving Repr

/-- One step of the interface. dropFile requires the uploader to be rendered
(no originalImage, App.tsx line 110) and no read already pending; a style
click requires the grid rendered (originalImage present) and the buttons
enabled (isLoading false); discard requires the grid rendered; settles
require the matching pending operation. -/
def stepUI (sys : Sys) (e : UIEvent) : Option Sys :=
  match e with
  | UIEvent.dropFile r =>
      match sys.app.originalImage, sys.pendingUpload with
      | none, none =>
          some { sys with app := handleImageUploadStart sys.app, pendingUpload := some r }
      | _, _ => none
  | UIEvent.uploadSettles =>
      match sys.pendingUpload with
      | some r =>
          some { sys with app := handleImageUploadComplete sys.app r, pendingUpload := none }
      | none => none
  | UIEvent.clickStyle style =>
      match sys.app.originalImage with
      | some _ =>
          if sys.app.isLoading then none
          else
            let r := handleStyleSelectStart sys.app style
            some { sys with app := r.1, pendingTransform := r.2 }
      | none => none
  | UIEvent.transformSettles o =>
      match sys.pendingTransform with
      | some _ =>
          some { sys with app := handleStyleSelectComplete sys.app (applyHairstyle o),
                          pendingTransform := none }
      | none => none
  | UIEvent.clickDiscard =>
      match sys.app.originalImage with
      | some _ => some { sys with app := handleDiscard sys.app }
      | none => none

/-- Run a list of interface events from a system state; none if any event is
impossible where it occurs. -/
def runUI (sys : Sys) : List UIEvent → Option Sys
  | [] => some sys
  | e :: es =>
      match stepUI sys e with
      | some sys2 => runUI sys2 es
      | none => none

/-!
CameraCapture component (CameraCapture.tsx). The mount effect has an empty
dependency list, so its closure — including the cleanup function returned at
lines 38 to 51 — captures the stream state value of the mount render, which
is null. Streams are named by numeric ids; liveTracks lists the ids of
browser streams whose tracks have not been stopped.
-/

/-- The camera component: the current React stream state, the stream value
captured by the mount effect closure, the active flag of that closure, the
browser streams with live tracks, and the error message state. -/
structure CameraComp where
  streamState : Option Nat
  effectStream : Option Nat
  active : Bool
  liveTracks : List Nat
  error : Option String
deriving DecidableEq, Repr

/-- The component right after mount: the effect has run, and its closure
captured the stream value of the mount render, which is none. -/
def cameraMount : CameraComp :=
  { streamState := none, effectStream := none, active := true,
    liveTracks := [], error := none }

/-- getUserMedia resolves with stream id (lines 22 to 29): the browser stream
tracks are live from this point; the component stores the stream in React
state when the closure is still active. The effect closure binding is not
updated, because the effect ran once at mount. -/
def grantStream (c : CameraComp) (id : Nat) : CameraComp :=
  { c with liveTracks := c.liveTracks ++ [id],
           streamState := if c.active then some id else c.streamState }

/-- getUserMedia rejects (lines 30 to 33): the error state is set; no stream
exists. -/
def denyStream (c : CameraComp) : CameraComp :=
  { c with error := some "Could not access camera. Please check your browser permissions." }

/-- The cleanup function created in the mount effect (lines 38 to 43), run on
unmount: it clears the active flag and stops the tracks of the stream its
closure sees — the stream binding captured at mount. -/
def cameraCleanup (c : CameraComp) : CameraComp :=
  { c with active := false,
           liveTracks :=
             match c.effectStream with
             | some id => c.liveTracks.filter (fun t => t ≠ id)
             | none => c.liveTracks }

/-- handleCapture (lines 54 to 74): with a stream in React state it draws the
mirrored frame and hands a capture file to onCapture; it does not stop any
track. Returns the id of the stream captured from, when one exists. -/
def cameraHandleCapture (c : CameraComp) : Option Nat × CameraComp :=
  match c.streamState with
  | some id => (some id, c)
  | none => (none, c)

/-!
BeforeAfterSlider (src/unnamed/part_005). sliderPos is the percentage p; the
clip of the before layer is the style clipPath inset(0 (100 - p)% 0 0) at
line 63, and the render stacks the after image first (bottom), then the
clipped before layer, then the divider handle.
-/

/-- The right inset percentage written into the clip path of the before
layer: 100 - sliderPos (line 63). -/
def clipInsetRight (p : Rat) : Rat := 100 - p

/-- The right edge of the visible region of the before image, in percent from
the left: a CSS inset clipping r percent on the right keeps the region from
the left edge to (100 - r) percent. -/
def beforeVisibleRight (p : Rat) : Rat := 100 - clipInsetRight p

/-- Modelled from the claim wording for comparison: the region the claim says
the before image is clipped to, namely from 0 to (100 - p) percent. -/
def claimedBeforeVisibleRight (p : Rat) : Rat := 100 - p

/-- The stacked layers of the slider render, bottom first (lines 56 to 82):
the after image, the clipped before layer, the divider handle. -/
inductive SliderLayer where
  | afterImage
  | beforeClipped
  | divider
deriving DecidableEq, Repr

/-- Render order of BeforeAfterSlider, bottom to top. -/
def renderLayers : List SliderLayer :=
  [SliderLayer.afterImage, SliderLayer.beforeClipped, SliderLayer.divider]

/-- The interactive state of the slider: sliderPos and the isDragging ref. -/
structure SliderUI where
  sliderPos : Rat
  dragging : Bool
deriving DecidableEq, Repr

/-- Initial slider state: useState(50), not dragging. -/
def sliderInit : SliderUI := { sliderPos := 50, dragging := false }

/-- handleMove (lines 13 to 19) over a bounding box with given left edge and
width: while dragging, clamp the pointer x to the box and set sliderPos to
the resulting percentage; otherwise do nothing. -/
def handleMove (rectLeft rectWidth : Rat) (st : SliderUI) (clientX : Rat) : SliderUI :=
  if st.dragging then
    { st with sliderPos := max 0 (min (clientX - rectLeft) rectWidth) / rectWidth * 100 }
  else st

/-- Drag input events: press on the handle (pointer down or touch start),
release (pointer up, touch end, or the global pointer up), and a move
carrying the clientX of the pointer or first touch. -/
inductive DragEvent where
  | press
  | release
  | move (clientX : Rat)
deriving Repr

/-- One slider event step: press sets the dragging ref, release clears it,
move runs handleMove. -/
def sliderStep (rectLeft rectWidth : Rat) (st : SliderUI) (e : DragEvent) : SliderUI :=
  match e with
  | DragEvent.press => { st with dragging := true }
  | DragEvent.release => { st with dragging := false }
  | DragEvent.move cx => handleMove rectLeft rectWidth st cx

/-- Run a sequence of drag events from the initial slider state. -/
def runSlider (rectLeft rectWidth : Rat) (evs : List DragEvent) : SliderUI :=
  evs.foldl (sliderStep rectLeft rectWidth) sliderInit

/-! Concrete sample data used by witnesses and counterexamples. -/

/-- A sample first acquisition. -/
def imgA : SourceImage :=
  { url := "blob:a", base64 := "AAAA", mimeType := "image/jpeg" }

/-- A sample replacement acquisition. -/
def imgB : SourceImage :=
  { url := "blob:b", base64 := "BBBB", mimeType := "image/png" }

/-- The Buzz / Crew Cut catalog entry (constants.ts lines 23 to 28). -/
def buzzCrewCut : PresetStyle :=
  { id := "buzz-crew-cut", name := "Buzz / Crew Cut",
    prompt := "Give the person a very short and clean buzz cut.",
    thumbnail := "/style-thumbnails/buzz-cut.svg" }

/-- The Classic Side Part catalog entry (constants.ts lines 5 to 10). -/
def classicSidePart : PresetStyle :=
  { id := "classic-side-part", name := "Classic Side Part",
    prompt := "Give the person a neat, classic side part hairstyle. Keep the color natural.",
    thumbnail := "/style-thumbnails/classic-side-part.svg" }

/-- A session mid-transform: source present, a transform outstanding. -/
def loadingSys : Sys :=
  { app := { originalImage := some imgA, styledImage := none, isLoading := true,
             error := none, selectedStyle := some buzzCrewCut },
    pendingUpload := none,
    pendingTransform := some { base64 := "AAAA", mimeType := "image/jpeg",
                               prompt := "Give the person a very short and clean buzz cut." } }

/-- A session holding a styled result, idle. -/
def styledState : AppState :=
  { originalImage := some imgA, styledImage := some "data:image/png;base64,Y",
    isLoading := false, error := none, selectedStyle := some classicSidePart }

end StyleMyHair

namespace StyleMyHair

/-- C9: handleDiscard, applied to any session state, leaves sourceImage,
styledResult, selectedDirective and lastError all absent, and applying it
twice yields the same state as applying it once. -/
theorem c9_discard_idempotent_total (s : AppState) :
    (handleDiscard s).originalImage = none ∧
    (handleDiscard s).styledImage = none ∧
    (handleDiscard s).selectedStyle = none ∧
    (handleDiscard s).error = none ∧
    handleDiscard (handleDiscard s) = handleDiscard s := by
  refine ⟨rfl, rfl, rfl, rfl, rfl⟩

/-- C10: with no sourceImage present, handleStyleSelect sets lastError to the
fixed message and returns before the transform: no call is issued and
styledImage, selectedStyle, isLoading and originalImage are unchanged. -/
theorem c10_missing_source_guard (s : AppState) (style : PresetStyle)
    (h : s.originalImage = none) :
    (handleStyleSelectStart s style).2 = none ∧
    (handleStyleSelectStart s style).1.error = some "Please upload an image first." ∧
    (handleStyleSelectStart s style).1.styledImage = s.styledImage ∧
    (handleStyleSelectStart s style).1.selectedStyle = s.selectedStyle ∧
    (handleStyleSelectStart s style).1.isLoading = s.isLoading ∧
    (handleStyleSelectStart s style).1.originalImage = s.originalImage := by
  simp [handleStyleSelectStart, h]

/-- Witness for C10 at the initial state and the Buzz / Crew Cut style. -/
theorem c10_missing_source_guard_witness :
    (handleStyleSelectStart initialState buzzCrewCut).2 = none ∧
    (handleStyleSelectStart initialState buzzCrewCut).1.error =
      some "Please upload an image first." ∧
    (handleStyleSelectStart initialState buzzCrewCut).1.styledImage =
      initialState.styledImage ∧
    (handleStyleSelectStart initialState buzzCrewCut).1.selectedStyle =
      initialState.selectedStyle ∧
    (handleStyleSelectStart initialState buzzCrewCut).1.isLoading =
      initialState.isLoading ∧
    (handleStyleSelectStart initialState buzzCrewCut).1.originalImage =
      initialState.originalImage :=
  c10_missing_source_guard initialState buzzCrewCut rfl

/-- C7: while a transform is outstanding (isLoading true) a second directive
selection is a no-op: the interface delivers no clickStyle event at all (the
preset buttons are disabled), and a click on the disabled button neither
changes the session state nor issues a second transform call. -/
theorem c7_no_second_transform (sys : Sys) (style : PresetStyle)
    (h : sys.app.isLoading = true) :
    stepUI sys (UIEvent.clickStyle style) = none ∧
    presetStyleClick sys.app style = (sys.app, none) := by
  constructor
  · cases horig : sys.app.originalImage <;> simp [stepUI, horig, h]
  · simp [presetStyleClick, h]

/-- Witness for C7 at a concrete mid-transform session. -/
theorem c7_no_second_transform_witness :
    stepUI loadingSys (UIEvent.clickStyle classicSidePart) = none ∧
    presetStyleClick loadingSys.app classicSidePart = (loadingSys.app, none) :=
  c7_no_second_transform loadingSys classicSidePart rfl

/-- Interface trace for C1 up to just before the stale completion: drop file
A, the read settles, select Buzz / Crew Cut (transform now outstanding),
click discard (the discard button is never disabled), drop file B on the
re-rendered uploader (its onDrop does not consult isLoading), the read
settles. The originating source image of the outstanding transform has now
been replaced. -/
def c1EventsBefore : List UIEvent :=
  [ UIEvent.dropFile (Except.ok imgA), UIEvent.uploadSettles,
    UIEvent.clickStyle buzzCrewCut, UIEvent.clickDiscard,
    UIEvent.dropFile (Except.ok imgB), UIEvent.uploadSettles ]

/-- The C1 trace including the stale transform settling successfully with
payload X. -/
def c1Events : List UIEvent :=
  c1EventsBefore ++ [UIEvent.transformSettles (ServiceOutcome.ok "X")]

/-- C1 counterexample: on the interface trace c1Events, the newer session
(source imgB) held no styledResult before the stale request settled, yet
delivering the stale success writes the stale payload into styledImage — the
completion handler has no staleness check, so the stale completion does
overwrite the newer session state. -/
theorem c1_counterexample :
    (runUI initSys c1EventsBefore).map (fun sys => sys.app.styledImage) = some none ∧
    (runUI initSys c1EventsBefore).map (fun sys => sys.app.originalImage) =
      some (some imgB) ∧
    (runUI initSys c1Events).map (fun sys => sys.app.styledImage) =
      some (some "data:image/png;base64,X") ∧
    (runUI initSys c1Events).map (fun sys => sys.app.originalImage) =
      some (some imgB) := by
  refine ⟨rfl, rfl, rfl, rfl⟩

/-- C1 amended: a successful TransformRequest completion is applied
unconditionally — whatever session state is current when it is delivered,
including one whose source image replaced the originating one, styledImage
is overwritten with the stale payload; no staleness suppression exists. -/
theorem c1_stale_completion_overwrites (s : AppState) (b : String) :
    (handleStyleSelectComplete s (Except.ok b)).styledImage =
      some ("data:image/png;base64," ++ b) ∧
    (handleStyleSelectComplete s (Except.ok b)).originalImage = s.originalImage := by
  exact ⟨rfl, rfl⟩

/-- Interface trace for C3 up to a present styled result: drop file A, read
settles, select Classic Side Part, transform settles successfully with
payload Y. -/
def c3EventsBefore : List UIEvent :=
  [ UIEvent.dropFile (Except.ok imgA), UIEvent.uploadSettles,
    UIEvent.clickStyle classicSidePart,
    UIEvent.transformSettles (ServiceOutcome.ok "Y") ]

/-- The C3 trace extended by a second selection whose transform fails with a
request error. -/
def c3Events : List UIEvent :=
  c3EventsBefore ++
    [ UIEvent.clickStyle buzzCrewCut,
      UIEvent.transformSettles (ServiceOutcome.requestError "boom") ]

/-- C3 counterexample: after c3EventsBefore a styledResult is present, but
after the failing second transform styledImage is none, not the prior
result — handleStyleSelect clears styledImage when the request starts, so
the failure leaves the view blank with lastError set. -/
theorem c3_counterexample :
    (runUI initSys c3EventsBefore).map (fun sys => sys.app.styledImage) =
      some (some "data:image/png;base64,Y") ∧
    (runUI initSys c3Events).map (fun sys => sys.app.styledImage) = some none ∧
    (runUI initSys c3Events).map (fun sys => sys.app.error) =
      some (some ("AI generation failed: " ++ geminiGenericFailureMessage ++
        ". Please try again.")) := by
  refine ⟨rfl, rfl, rfl⟩

/-- C3 amended: selecting a directive clears styledResult before the
transform runs, so a failing transform leaves styledResult absent rather
than preserving the prior result, and sets lastError to the wrapped
generation-failure message. -/
theorem c3_failed_transform_blanks_result (s : AppState) (style : PresetStyle)
    (m : String) (h : s.originalImage.isSome = true) :
    (handleStyleSelectComplete (handleStyleSelectStart s style).1
        (Except.error m)).styledImage = none ∧
    (handleStyleSelectComplete (handleStyleSelectStart s style).1
        (Except.error m)).error =
      some ("AI generation failed: " ++ m ++ ". Please try again.") := by
  cases horig : s.originalImage with
  | none => rw [horig] at h; cases h
  | some img => simp [handleStyleSelectStart, handleStyleSelectComplete, horig]

/-- Witness for C3 amended at a session holding a styled result. -/
theorem c3_failed_transform_blanks_result_witness :
    (handleStyleSelectComplete (handleStyleSelectStart styledState buzzCrewCut).1
        (Except.error "boom")).styledImage = none ∧
    (handleStyleSelectComplete (handleStyleSelectStart styledState buzzCrewCut).1
        (Except.error "boom")).error =
      some ("AI generation failed: " ++ "boom" ++ ". Please try again.") :=
  c3_failed_transform_blanks_result styledState buzzCrewCut "boom" rfl

/-- C4 counterexample: from a session with source imgA, styled result Y and a
selected directive, a failed replacement decode keeps originalImage and sets
lastError, but styledImage and selectedStyle have been cleared by the start
of the acquisition attempt — not left exactly as they were. -/
theorem c4_counterexample :
    (handleImageUploadComplete (handleImageUploadStart styledState)
        (Except.error ())).originalImage = some imgA ∧
    (handleImageUploadComplete (handleImageUploadStart styledState)
        (Except.error ())).error = some "Failed to load image. Please try again." ∧
    (handleImageUploadComplete (handleImageUploadStart styledState)
        (Except.error ())).styledImage = none ∧
    styledState.styledImage = some "data:image/png;base64,Y" ∧
    (handleImageUploadComplete (handleImageUploadStart styledState)
        (Except.error ())).selectedStyle = none ∧
    styledState.selectedStyle = some classicSidePart := by
  refine ⟨rfl, rfl, rfl, rfl, rfl, rfl⟩

/-- C4 amended: with an existing sourceImage, a failed replacement decode
leaves sourceImage unchanged and sets lastError, but styledResult and
selectedDirective are cleared at the start of the attempt — the replacement
is all-or-nothing only for the source image itself. -/
theorem c4_failed_replacement (s : AppState) (img : SourceImage)
    (h : s.originalImage = some img) :
    (handleImageUploadComplete (handleImageUploadStart s)
        (Except.error ())).originalImage = some img ∧
    (handleImageUploadComplete (handleImageUploadStart s)
        (Except.error ())).error = some "Failed to load image. Please try again." ∧
    (handleImageUploadComplete (handleImageUploadStart s)
        (Except.error ())).styledImage = none ∧
    (handleImageUploadComplete (handleImageUploadStart s)
        (Except.error ())).selectedStyle = none := by
  simp [handleImageUploadStart, handleImageUploadComplete, h]

/-- Witness for C4 amended at the session holding source imgA and result Y. -/
theorem c4_failed_replacement_witness :
    (handleImageUploadComplete (handleImageUploadStart styledState)
        (Except.error ())).originalImage = some imgA ∧
    (handleImageUploadComplete (handleImageUploadStart styledState)
        (Except.error ())).error = some "Failed to load image. Please try again." ∧
    (handleImageUploadComplete (handleImageUploadStart styledState)
        (Except.error ())).styledImage = none ∧
    (handleImageUploadComplete (handleImageUploadStart styledState)
        (Except.error ())).selectedStyle = none :=
  c4_failed_replacement styledState imgA rfl

/-- C2: evaluation of the camera lifecycle at the failing input. After the
stream with id 7 is granted, unmount runs the effect cleanup, whose closure
still sees the mount-render stream value (none), so the track is not
stopped; a capture also leaves the track live, and unmount after the capture
still leaves it live. The claim that every exit path stops all tracks fails
on the code. -/
theorem c2_stream_leak :
    (cameraCleanup (grantStream cameraMount 7)).liveTracks = [7] ∧
    ((cameraHandleCapture (grantStream cameraMount 7)).2).liveTracks = [7] ∧
    (cameraCleanup ((cameraHandleCapture (grantStream cameraMount 7)).2)).liveTracks
      = [7] ∧
    (grantStream cameraMount 7).streamState = some 7 ∧
    (grantStream cameraMount 7).effectStream = none := by
  refine ⟨rfl, rfl, rfl, rfl, rfl⟩

/-- C5: evaluation of applyHairstyle at the declined-generation input. The
no-image outcome and the network-failure outcome both surface the identical
generic message, because the detailed error thrown in the try block is
caught by the same catch and replaced, so no GenerationBlocked-distinct kind
and no cause text reach the session; the styledImage does stay absent and
the session error wraps the generic message. -/
theorem c5_error_collapse :
    applyHairstyle (ServiceOutcome.noImage "SAFETY" "[]") =
      Except.error geminiGenericFailureMessage ∧
    applyHairstyle (ServiceOutcome.requestError "fetch failed") =
      Except.error geminiGenericFailureMessage ∧
    applyHairstyleTry (ServiceOutcome.noImage "SAFETY" "[]") =
      Except.error (geminiNoImageMessage "SAFETY" "[]") ∧
    geminiNoImageMessage "SAFETY" "[]" ≠ geminiGenericFailureMessage ∧
    (handleStyleSelectComplete
        (handleStyleSelectStart styledState buzzCrewCut).1
        (applyHairstyle (ServiceOutcome.noImage "SAFETY" "[]"))).styledImage = none ∧
    (handleStyleSelectComplete
        (handleStyleSelectStart styledState buzzCrewCut).1
        (applyHairstyle (ServiceOutcome.noImage "SAFETY" "[]"))).error =
      some ("AI generation failed: " ++ geminiGenericFailureMessage ++
        ". Please try again.") := by
  refine ⟨rfl, rfl, rfl, by decide, rfl, rfl⟩

/-- C6 counterexample: at divider position p = 100 the code leaves the before
image fully visible (right inset 0, visible region up to 100 percent), while
the claimed clip region [0, 100 - p] would have width 0 — the claimed
formula disagrees with the code. -/
theorem c6_counterexample :
    beforeVisibleRight 100 = 100 ∧
    claimedBeforeVisibleRight 100 = 0 ∧
    beforeVisibleRight 100 ≠ claimedBeforeVisibleRight 100 := by
  refine ⟨by norm_num [beforeVisibleRight, clipInsetRight],
          by norm_num [claimedBeforeVisibleRight],
          by norm_num [beforeVisibleRight, clipInsetRight, claimedBeforeVisibleRight]⟩

/-- C6 amended: the after image renders beneath (first, bottom layer), and
the before image is clipped to the region [0, p] percent from the left edge
(the code sets the right inset to 100 - p percent), so dragging the handle
right, increasing p, reveals more of the before image. -/
theorem c6_clip_region (p : Rat) :
    beforeVisibleRight p = p ∧
    renderLayers.head? = some SliderLayer.afterImage := by
  constructor
  · unfold beforeVisibleRight clipInsetRight; ring
  · rfl

/-- Each slider event preserves membership of sliderPos in [0, 100], given a
positive bounding-box width: handleMove clamps the pointer x to [0, width]
before dividing by the width. -/
theorem sliderStep_preserves_range (rectLeft rectWidth : Rat)
    (hw : 0 < rectWidth) (st : SliderUI) (e : DragEvent)
    (h : 0 ≤ st.sliderPos ∧ st.sliderPos ≤ 100) :
    0 ≤ (sliderStep rectLeft rectWidth st e).sliderPos ∧
    (sliderStep rectLeft rectWidth st e).sliderPos ≤ 100 := by
  cases e with
  | press => exact h
  | release => exact h
  | move cx =>
      simp only [sliderStep, handleMove]
      by_cases hd : st.dragging
      · simp only [hd, if_true]
        have hx0 : (0 : Rat) ≤ max 0 (min (cx - rectLeft) rectWidth) := le_max_left _ _
        have hxw : max 0 (min (cx - rectLeft) rectWidth) ≤ rectWidth :=
          max_le hw.le (min_le_right _ _)
        have hq0 : (0 : Rat) ≤ max 0 (min (cx - rectLeft) rectWidth) / rectWidth :=
          div_nonneg hx0 hw.le
        have hq1 : max 0 (min (cx - rectLeft) rectWidth) / rectWidth ≤ 1 :=
          (div_le_one hw).mpr hxw
        constructor
        · exact mul_nonneg hq0 (by norm_num)
        · calc max 0 (min (cx - rectLeft) rectWidth) / rectWidth * 100
              ≤ 1 * 100 := by
                exact mul_le_mul_of_nonneg_right hq1 (by norm_num)
            _ = 100 := one_mul 100
      · simp only [hd, if_false]
        exact h

/-- C8: for every sequence of drag input events applied to the slider from
its initial state, over a bounding box of positive width, the reveal
fraction sliderPos stays within [0, 100] after every event — each move while
dragging clamps the horizontal position to the bounding box before computing
the percentage. -/
theorem c8_slider_pos_in_range (rectLeft rectWidth : Rat) (hw : 0 < rectWidth)
    (evs : List DragEvent) :
    0 ≤ (runSlider rectLeft rectWidth evs).sliderPos ∧
    (runSlider rectLeft rectWidth evs).sliderPos ≤ 100 := by
  have aux : ∀ (es : List DragEvent) (st : SliderUI),
      0 ≤ st.sliderPos ∧ st.sliderPos ≤ 100 →
      0 ≤ (es.foldl (sliderStep rectLeft rectWidth) st).sliderPos ∧
      (es.foldl (sliderStep rectLeft rectWidth) st).sliderPos ≤ 100 := by
    intro es
    induction es with
    | nil => intro st h; exact h
    | cons e es ih =>
        intro st h
        exact ih _ (sliderStep_preserves_range rectLeft rectWidth hw st e h)
  exact aux evs sliderInit ⟨by norm_num [sliderInit], by norm_num [sliderInit]⟩

/-- Witness for C8: a concrete drag sequence over a box of left edge 10 and
width 200, with moves far past both edges. -/
theorem c8_slider_pos_in_range_witness :
    0 ≤ (runSlider 10 200
      [DragEvent.press, DragEvent.move 500, DragEvent.move (-30),
       DragEvent.release, DragEvent.move 90]).sliderPos ∧
    (runSlider 10 200
      [DragEvent.press, DragEvent.move 500, DragEvent.move (-30),
       DragEvent.release, DragEvent.move 90]).sliderPos ≤ 100 :=
  c8_slider_pos_in_range 10 200 (by norm_num)
    [DragEvent.press, DragEvent.move 500, DragEvent.move (-30),
     DragEvent.release, DragEvent.move 90]

end StyleMyHair
